import Mathlib

/-!
Verification of the UnionHub IAP subscription-state engine (Go repository
`verification-api`) against its natural-language specification.

The Go source is shallowly embedded: the relational `subscription` table is a
`List Subscription`, GORM operations become pure list functions, wall-clock
times are `Int` Unix seconds (Go `time.Time`), Apple millisecond timestamps
are `Int` and are converted exactly as `time.Unix(ms/1000, 0)` does
(truncating division toward zero, `Int.div`).  Logging side effects that the
spec's invariants mention (mismatch logs, terminal-failure logs) are recorded
as Boolean flags in the result structures.  Outbound HTTP is modelled by
passing the observed responses in as data.
-/

namespace VerificationApi

/-- Embeds `models.Subscription` (GORM model).  `id` is the `BaseModel`
primary key; `userID` is the legacy `user_id` column and `appAccountToken`
the `app_account_token` column — the current code uses both.  Times are Unix
seconds. -/
structure Subscription where
  id : Nat := 0
  userID : String := ""
  appAccountToken : String := ""
  projectID : String := ""
  platform : String := ""
  plan : String := ""
  status : String := ""
  startDate : Int := 0
  endDate : Int := 0
  productID : String := ""
  transactionID : String := ""
  originalTransactionID : String := ""
  environment : String := ""
  purchaseDate : Int := 0
  expiresDate : Int := 0
  autoRenewStatus : Bool := false
  latestReceipt : String := ""
  latestReceiptInfo : String := ""
  deriving Repr, DecidableEq

/-- Embeds `models.Project` (the fields the subscription engine reads). -/
structure Project where
  projectID : String := ""
  projectName : String := ""
  apiKey : String := ""
  isActive : Bool := true
  bundleID : String := ""
  packageName : String := ""
  webhookCallbackURL : String := ""
  webhookSecret : String := ""
  deriving Repr, DecidableEq

/-- Embeds `models.TransactionInfo`: the claims decoded from a
`signedTransactionInfo` JWS payload by `parseTransactionInfo`. -/
structure TransactionInfo where
  transactionID : String := ""
  originalTransactionID : String := ""
  productID : String := ""
  purchaseDateMS : Int := 0
  expiresDateMS : Int := 0
  autoRenewStatus : Int := 0
  environment : String := ""
  appAccountToken : String := ""
  deriving Repr, DecidableEq

/-- The subscription table: rows in insertion order. -/
abbrev SubDB := List Subscription

/-- A fresh primary key for an insert (GORM auto-increment). -/
def freshId (db : SubDB) : Nat :=
  (db.foldl (fun acc s => max acc s.id) 0) + 1

/-- Embeds `database.CreateSubscription`: `DB.Create` assigns the primary key
and appends the row.  Returns the stored row and the new table. -/
def CreateSubscription (db : SubDB) (sub : Subscription) : Subscription × SubDB :=
  let row := { sub with id := freshId db }
  (row, db ++ [row])

/-- Embeds `database.UpdateSubscription`: `DB.Save` writes the row back over
the row with the same primary key. -/
def UpdateSubscription (db : SubDB) (sub : Subscription) : SubDB :=
  db.map (fun r => if r.id = sub.id then sub else r)

/-- Embeds `database.GetSubscriptionByOriginalTransactionID`:
`WHERE project_id = ? AND original_transaction_id = ?`, first match. -/
def GetSubscriptionByOriginalTransactionID (db : SubDB)
    (projectID originalTransactionID : String) : Option Subscription :=
  db.find? (fun s =>
    s.projectID = projectID ∧ s.originalTransactionID = originalTransactionID)

/-- Embeds `database.FindSubscriptionByOriginalTransactionID`: the same
lookup but `WHERE original_transaction_id = ?` only — no `project_id`
filter (used by `BindAccount`). -/
def FindSubscriptionByOriginalTransactionID (db : SubDB)
    (originalTransactionID : String) : Option Subscription :=
  db.find? (fun s => s.originalTransactionID = originalTransactionID)

/-- Embeds `database.FindSubscriptionByPurchaseToken`:
`WHERE platform = 'android' AND latest_receipt = ?`. -/
def FindSubscriptionByPurchaseToken (db : SubDB) (purchaseToken : String) :
    Option Subscription :=
  db.find? (fun s => s.platform = "android" ∧ s.latestReceipt = purchaseToken)

/-- Result of `database.CreateOrUpdateSubscription`.  `boundToken` and
`mismatchLogged` record the two `app_account_token` log events; `row` is the
row as written. -/
structure UpsertResult where
  db : SubDB
  row : Subscription
  created : Bool
  boundToken : Bool
  mismatchLogged : Bool
  deriving Repr, DecidableEq

/-- Embeds `database.CreateOrUpdateSubscription` (the current
`src/internal/database/subscription.go` version): inside a transaction,
`SELECT ... FOR UPDATE` on `(project_id, original_transaction_id)`; insert
when absent; otherwise bind `app_account_token` when the stored one is empty
and the incoming one non-empty, log a mismatch (and keep the stored token)
when both are non-empty and differ, then overwrite the remaining fields with
the incoming values and save. -/
def CreateOrUpdateSubscription (db : SubDB) (sub : Subscription) : UpsertResult :=
  match GetSubscriptionByOriginalTransactionID db sub.projectID sub.originalTransactionID with
  | none =>
      let (row, db') := CreateSubscription db sub
      { db := db', row := row, created := true, boundToken := false, mismatchLogged := false }
  | some existing =>
      let bind := existing.appAccountToken = "" ∧ sub.appAccountToken ≠ ""
      let mismatch := existing.appAccountToken ≠ "" ∧ sub.appAccountToken ≠ "" ∧
        existing.appAccountToken ≠ sub.appAccountToken
      let existing' :=
        if existing.appAccountToken = "" then
          if sub.appAccountToken ≠ "" then
            { existing with appAccountToken := sub.appAccountToken }
          else existing
        else existing
      let row :=
        { existing' with
          status := sub.status
          startDate := sub.startDate
          endDate := sub.endDate
          expiresDate := sub.expiresDate
          autoRenewStatus := sub.autoRenewStatus
          latestReceipt := sub.latestReceipt
          latestReceiptInfo := sub.latestReceiptInfo
          plan := sub.plan
          productID := sub.productID
          transactionID := sub.transactionID
          environment := sub.environment
          purchaseDate := sub.purchaseDate }
      { db := UpdateSubscription db row, row := row, created := false,
        boundToken := decide bind, mismatchLogged := decide mismatch }

/-- Embeds `getPlanFromProductID` (appstore_notification.go). -/
def getPlanFromProductID (productID : String) : String :=
  if productID = "com.dailyzen.monthly" ∨ productID = "monthly" then "monthly"
  else if productID = "com.dailyzen.yearly" ∨ productID = "yearly" then "yearly"
  else "basic"

/-- Go `time.Unix(ms/1000, 0)`: millisecond timestamp to Unix seconds with
Go's integer division (truncation toward zero, which is `Int.div`). -/
def msToUnix (ms : Int) : Int := Int.tdiv ms 1000

/-- Embeds `handleInitialBuy` (INITIAL_BUY / SUBSCRIBED): look the row up by
`(project_id, original_transaction_id)`; when absent create an `active` row
carrying the incoming `appAccountToken`; when present bind the token if the
stored one is empty and the incoming one is not, then set status `active`,
refresh `expires_date` and `auto_renew`, and save. -/
def handleInitialBuy (db : SubDB) (tx : TransactionInfo)
    (projectID environment : String) : Except String (Subscription × SubDB) :=
  let userID := tx.appAccountToken
  match GetSubscriptionByOriginalTransactionID db projectID tx.originalTransactionID with
  | none =>
      let sub : Subscription :=
        { projectID := projectID
          appAccountToken := userID
          platform := "ios"
          plan := getPlanFromProductID tx.productID
          status := "active"
          startDate := msToUnix tx.purchaseDateMS
          endDate := msToUnix tx.expiresDateMS
          productID := tx.productID
          transactionID := tx.transactionID
          originalTransactionID := tx.originalTransactionID
          environment := environment
          purchaseDate := msToUnix tx.purchaseDateMS
          expiresDate := msToUnix tx.expiresDateMS
          autoRenewStatus := tx.autoRenewStatus = 1 }
      let (row, db') := CreateSubscription db sub
      .ok (row, db')
  | some subscription =>
      let subscription :=
        if subscription.appAccountToken = "" ∧ userID ≠ "" then
          { subscription with appAccountToken := userID }
        else subscription
      let subscription :=
        { subscription with
          status := "active"
          expiresDate := msToUnix tx.expiresDateMS
          autoRenewStatus := tx.autoRenewStatus = 1 }
      .ok (subscription, UpdateSubscription db subscription)

/-- Embeds `handleDidRenew` (DID_RENEW / RENEWAL_EXTENDED): requires an
existing row; binds the token if the stored one is empty; sets status
`active`, refreshes `expires_date` and `auto_renew`. -/
def handleDidRenew (db : SubDB) (tx : TransactionInfo) (projectID : String) :
    Except String (Subscription × SubDB) :=
  match GetSubscriptionByOriginalTransactionID db projectID tx.originalTransactionID with
  | none => .error "subscription not found"
  | some subscription =>
      let subscription :=
        if subscription.appAccountToken = "" ∧ tx.appAccountToken ≠ "" then
          { subscription with appAccountToken := tx.appAccountToken }
        else subscription
      let subscription :=
        { subscription with
          status := "active"
          expiresDate := msToUnix tx.expiresDateMS
          autoRenewStatus := tx.autoRenewStatus = 1 }
      .ok (subscription, UpdateSubscription db subscription)

/-- Shared shape of `handleDidFailToRenew`, `handleDidCancel`,
`handleDidRefund` and `handleExpired`: requires an existing row; binds the
token if the stored one is empty; sets the terminal status and clears
`auto_renew` (the four Go functions differ only in `targetStatus`). -/
def handleTerminalStatus (db : SubDB) (tx : TransactionInfo)
    (projectID targetStatus : String) : Except String (Subscription × SubDB) :=
  match GetSubscriptionByOriginalTransactionID db projectID tx.originalTransactionID with
  | none => .error "subscription not found"
  | some subscription =>
      let subscription :=
        if subscription.appAccountToken = "" ∧ tx.appAccountToken ≠ "" then
          { subscription with appAccountToken := tx.appAccountToken }
        else subscription
      let subscription :=
        { subscription with status := targetStatus, autoRenewStatus := false }
      .ok (subscription, UpdateSubscription db subscription)

/-- Embeds `handleDidFailToRenew` (DID_FAIL_TO_RENEW → `failed`). -/
def handleDidFailToRenew (db : SubDB) (tx : TransactionInfo) (projectID : String) :
    Except String (Subscription × SubDB) :=
  handleTerminalStatus db tx projectID "failed"

/-- Embeds `handleDidCancel` (DID_CANCEL → `cancelled`). -/
def handleDidCancel (db : SubDB) (tx : TransactionInfo) (projectID : String) :
    Except String (Subscription × SubDB) :=
  handleTerminalStatus db tx projectID "cancelled"

/-- Embeds `handleDidRefund` (DID_REFUND / REVOKE → `refunded`). -/
def handleDidRefund (db : SubDB) (tx : TransactionInfo) (projectID : String) :
    Except String (Subscription × SubDB) :=
  handleTerminalStatus db tx projectID "refunded"

/-- Embeds `handleExpired` (EXPIRED / GRACE_PERIOD_EXPIRED → `expired`). -/
def handleExpired (db : SubDB) (tx : TransactionInfo) (projectID : String) :
    Except String (Subscription × SubDB) :=
  handleTerminalStatus db tx projectID "expired"

/-- Embeds `handleNotificationByType`: the `switch notificationType`
dispatch.  The default case logs the unknown type and returns `(nil, nil)`,
modelled as `.ok (none, db)`. -/
def handleNotificationByType (db : SubDB) (notificationType : String)
    (tx : TransactionInfo) (projectID environment : String) :
    Except String (Option Subscription × SubDB) :=
  if notificationType = "INITIAL_BUY" ∨ notificationType = "SUBSCRIBED" then
    (handleInitialBuy db tx projectID environment).map (fun p => (some p.1, p.2))
  else if notificationType = "DID_RENEW" ∨ notificationType = "RENEWAL_EXTENDED" then
    (handleDidRenew db tx projectID).map (fun p => (some p.1, p.2))
  else if notificationType = "DID_FAIL_TO_RENEW" then
    (handleDidFailToRenew db tx projectID).map (fun p => (some p.1, p.2))
  else if notificationType = "DID_CANCEL" then
    (handleDidCancel db tx projectID).map (fun p => (some p.1, p.2))
  else if notificationType = "DID_REFUND" ∨ notificationType = "REVOKE" then
    (handleDidRefund db tx projectID).map (fun p => (some p.1, p.2))
  else if notificationType = "EXPIRED" ∨ notificationType = "GRACE_PERIOD_EXPIRED" then
    (handleExpired db tx projectID).map (fun p => (some p.1, p.2))
  else
    .ok (none, db)

/-! ### Replay protection (`services.ReplayProtection`) -/

/-- Embeds `generateNotificationID`: the Go code hashes
`fmt.Sprintf("%s:%d", uuid, timestamp)` with SHA-256 and hex-encodes it.
Hashing is modelled as the identity on the formatted pre-image (SHA-256 hex
encoding is injective up to hash collisions), so the map key is the
formatted `uuid:timestamp` string itself. -/
def generateNotificationID (notificationUUID : String) (timestamp : Int) : String :=
  notificationUUID ++ ":" ++ toString timestamp

/-- State of `ReplayProtection.processedNotifications`: notification id →
the `time.Now()` at which it was first recorded (Unix seconds). -/
abbrev ReplayState := List (String × Int)

/-- `notificationTTL`: 24 hours, in seconds. -/
def notificationTTL : Int := 24 * 3600

/-- Embeds `ReplayProtection.IsReplay` at wall-clock `now`: an empty UUID is
never a replay; a recorded `(uuid, signedDate)` id is a replay; otherwise
the id is recorded with the current time. -/
def IsReplay (notificationUUID : String) (timestamp : Int) (now : Int)
    (st : ReplayState) : Bool × ReplayState :=
  if notificationUUID = "" then (false, st)
  else
    let nid := generateNotificationID notificationUUID timestamp
    match st.lookup nid with
    | some _ => (true, st)
    | none => (false, (nid, now) :: st)

/-- Embeds `ReplayProtection.cleanup` at wall-clock `now`: drop every entry
whose recorded time is more than `notificationTTL` in the past. -/
def replayCleanup (now : Int) (st : ReplayState) : ReplayState :=
  st.filter (fun e => ¬ (now - e.2 > notificationTTL))

/-- One externally triggered event against the replay guard between two
arrivals of interest: another notification arriving, or a sweeper tick. -/
inductive ReplayOp where
  | call (uuid : String) (timestamp : Int) (now : Int)
  | sweep (now : Int)
  deriving Repr, DecidableEq

/-- Run a sequence of replay-guard operations over the state. -/
def runReplayOps (ops : List ReplayOp) (st : ReplayState) : ReplayState :=
  ops.foldl (fun s op =>
    match op with
    | .call u t n => (IsReplay u t n s).2
    | .sweep n => replayCleanup n s) st

/-! ### Webhook ingestion pipeline (`processAppStoreNotification`) -/

/-- Embeds `models.NotificationData`.  `signedTransactionInfo` in the Go
struct is a JWS compact serialisation; its decoded claims are carried here
directly (`none` models a `parseTransactionInfo` failure). -/
structure NotificationData where
  bundleID : String := ""
  environment : String := ""
  signedTransactionInfo : Option TransactionInfo := none
  deriving Repr, DecidableEq

/-- Embeds `models.AppStoreNotification` (the decoded outer JWS payload). -/
structure AppStoreNotification where
  notificationType : String := ""
  notificationUUID : String := ""
  signedDate : Int := 0
  data : NotificationData := {}
  deriving Repr, DecidableEq

/-- Embeds `ProjectService.GetProjectByBundleID`:
`WHERE bundle_id = ? AND is_active = true`, first match. -/
def GetProjectByBundleID (projects : List Project) (bundleID : String) :
    Option Project :=
  projects.find? (fun p => p.bundleID = bundleID ∧ p.isActive = true)

/-- Outcome of `processAppStoreNotification` from the point where the outer
payload has been decoded: HTTP status, response message, the replay-guard
state, the subscription table, and whether an outbound webhook dispatch was
started. -/
structure ProcessResult where
  httpStatus : Nat
  message : String
  replay : ReplayState
  db : SubDB
  webhookStarted : Bool
  deriving Repr, DecidableEq

/-- Embeds the decoded-payload stage of `processAppStoreNotification`
(appstore_notification.go lines 128–228): heartbeat on empty type, replay
check, project lookup by `bundleId`, transaction-info parse, optional
device-id resolution via the tenant backend (`resolveDeviceID`, which the
code falls back from on any failure by keeping the token), dispatch by
notification type, then fire-and-forget webhook when a subscription was
written and the project has a callback URL. -/
def processAppStoreNotification (n : AppStoreNotification)
    (projects : List Project) (rp : ReplayState) (db : SubDB) (now : Int)
    (resolveDeviceID : String → Option String) : ProcessResult :=
  if n.notificationType = "" then
    { httpStatus := 200, message := "heartbeat_ok", replay := rp, db := db,
      webhookStarted := false }
  else
    let (isRep, rp') := IsReplay n.notificationUUID n.signedDate now rp
    if isRep then
      { httpStatus := 400, message := "Duplicate notification detected",
        replay := rp', db := db, webhookStarted := false }
    else
      match GetProjectByBundleID projects n.data.bundleID with
      | none =>
          { httpStatus := 400,
            message := "Project not found for bundle_id: " ++ n.data.bundleID,
            replay := rp', db := db, webhookStarted := false }
      | some project =>
          match n.data.signedTransactionInfo with
          | none =>
              { httpStatus := 400, message := "Failed to parse transaction info",
                replay := rp', db := db, webhookStarted := false }
          | some tx =>
              let tx :=
                if tx.appAccountToken ≠ "" ∧ project.webhookCallbackURL ≠ "" then
                  match resolveDeviceID tx.appAccountToken with
                  | some deviceID =>
                      if deviceID ≠ "" then { tx with appAccountToken := deviceID }
                      else tx
                  | none => tx
                else tx
              match handleNotificationByType db n.notificationType tx
                  project.projectID n.data.environment with
              | .error _ =>
                  { httpStatus := 500, message := "Failed to process notification",
                    replay := rp', db := db, webhookStarted := false }
              | .ok (subOpt, db') =>
                  { httpStatus := 200,
                    message := "Notification processed successfully",
                    replay := rp', db := db',
                    webhookStarted :=
                      subOpt.isSome && decide (project.webhookCallbackURL ≠ "") }

/-! ### SHA-256 and HMAC-SHA256 (Go `crypto/sha256`, `crypto/hmac`)

Bytes are `Nat < 256`, 32-bit words are `Nat` reduced mod `2^32`. -/

/-- Reduce to a 32-bit word. -/
def w32 (x : Nat) : Nat := x % 4294967296

/-- 32-bit rotate right. -/
def rotr32 (n x : Nat) : Nat := w32 ((x >>> n) ||| (x <<< (32 - n)))

/-- 32-bit bitwise complement. -/
def not32 (x : Nat) : Nat := x ^^^ 4294967295

/-- SHA-256 round constants (FIPS 180-4, in decimal). -/
def sha256K : List Nat :=
  [1116352408, 1899447441, 3049323471, 3921009573, 961987163,
   1508970993, 2453635748, 2870763221, 3624381080, 310598401,
   607225278, 1426881987, 1925078388, 2162078206, 2614888103,
   3248222580, 3835390401, 4022224774, 264347078, 604807628,
   770255983, 1249150122, 1555081692, 1996064986, 2554220882,
   2821834349, 2952996808, 3210313671, 3336571891, 3584528711,
   113926993, 338241895, 666307205, 773529912, 1294757372,
   1396182291, 1695183700, 1986661051, 2177026350, 2456956037,
   2730485921, 2820302411, 3259730800, 3345764771, 3516065817,
   3600352804, 4094571909, 275423344, 430227734, 506948616,
   659060556, 883997877, 958139571, 1322822218, 1537002063,
   1747873779, 1955562222, 2024104815, 2227730452, 2361852424,
   2428436474, 2756734187, 3204031479, 3329325298]

/-- SHA-256 initial hash state (FIPS 180-4, in decimal). -/
def sha256InitH : List Nat :=
  [1779033703, 3144134277, 1013904242, 2773480762,
   1359893119, 2600822924, 528734635, 1541459225]

/-- Big-endian 8-byte encoding of the bit length. -/
def bigEndian8 (n : Nat) : List Nat :=
  [(n >>> 56) &&& 255, (n >>> 48) &&& 255, (n >>> 40) &&& 255, (n >>> 32) &&& 255,
   (n >>> 24) &&& 255, (n >>> 16) &&& 255, (n >>> 8) &&& 255, n &&& 255]

/-- SHA-256 padding: `0x80`, zeros to 56 mod 64, then the bit length. -/
def sha256Pad (msg : List Nat) : List Nat :=
  let zeros := (56 + 64 - ((msg.length + 1) % 64)) % 64
  msg ++ [0x80] ++ List.replicate zeros 0 ++ bigEndian8 (8 * msg.length)

/-- Group bytes into big-endian 32-bit words. -/
def bytesToWords : List Nat → List Nat
  | a :: b :: c :: d :: rest =>
      ((((a <<< 8) ||| b) <<< 16) ||| ((c <<< 8) ||| d)) :: bytesToWords rest
  | _ => []

/-- Extend a 16-word block to the 64-word message schedule. -/
def sha256Schedule (block : List Nat) : List Nat :=
  let w := (List.range 48).foldl (fun (w : Array Nat) j =>
    let i := j + 16
    let s0 := rotr32 7 (w.getD (i - 15) 0) ^^^ rotr32 18 (w.getD (i - 15) 0) ^^^
      ((w.getD (i - 15) 0) >>> 3)
    let s1 := rotr32 17 (w.getD (i - 2) 0) ^^^ rotr32 19 (w.getD (i - 2) 0) ^^^
      ((w.getD (i - 2) 0) >>> 10)
    w.push (w32 (w.getD (i - 16) 0 + s0 + w.getD (i - 7) 0 + s1))) block.toArray
  w.toList

/-- SHA-256 compression of one 16-word block into the hash state. -/
def sha256Compress (hs : List Nat) (block : List Nat) : List Nat :=
  let ws := sha256Schedule block
  let init := (hs.getD 0 0, hs.getD 1 0, hs.getD 2 0, hs.getD 3 0,
               hs.getD 4 0, hs.getD 5 0, hs.getD 6 0, hs.getD 7 0)
  let fin := (sha256K.zip ws).foldl (fun st kw =>
    let (a, b, c, d, e, f, g, h) := st
    let ch := (e &&& f) ^^^ ((not32 e) &&& g)
    let maj := (a &&& b) ^^^ (a &&& c) ^^^ (b &&& c)
    let s1 := rotr32 6 e ^^^ rotr32 11 e ^^^ rotr32 25 e
    let s0 := rotr32 2 a ^^^ rotr32 13 a ^^^ rotr32 22 a
    let t1 := w32 (h + s1 + ch + kw.1 + kw.2)
    let t2 := w32 (s0 + maj)
    (w32 (t1 + t2), a, b, c, w32 (d + t1), e, f, g)) init
  let (a, b, c, d, e, f, g, h) := fin
  [w32 (hs.getD 0 0 + a), w32 (hs.getD 1 0 + b), w32 (hs.getD 2 0 + c),
   w32 (hs.getD 3 0 + d), w32 (hs.getD 4 0 + e), w32 (hs.getD 5 0 + f),
   w32 (hs.getD 6 0 + g), w32 (hs.getD 7 0 + h)]

/-- Fold the compression over 16-word blocks (fuel-driven; the fuel is the
word count, which bounds the block count). -/
def sha256Blocks : Nat → List Nat → List Nat → List Nat
  | 0, hs, _ => hs
  | _, hs, [] => hs
  | fuel + 1, hs, ws => sha256Blocks fuel (sha256Compress hs (ws.take 16)) (ws.drop 16)

/-- Big-endian bytes of a 32-bit word. -/
def wordToBytesBE (w : Nat) : List Nat :=
  [(w >>> 24) &&& 255, (w >>> 16) &&& 255, (w >>> 8) &&& 255, w &&& 255]

/-- SHA-256 of a byte string. -/
def sha256 (msg : List Nat) : List Nat :=
  let ws := bytesToWords (sha256Pad msg)
  ((sha256Blocks ws.length sha256InitH ws).map wordToBytesBE).flatten

/-- HMAC-SHA256 (Go `hmac.New(sha256.New, key)`): block size 64. -/
def hmacSha256 (key msg : List Nat) : List Nat :=
  let key := if 64 < key.length then sha256 key else key
  let pad := key ++ List.replicate (64 - key.length) 0
  sha256 ((pad.map (fun b => b ^^^ 0x5c)) ++ sha256 ((pad.map (fun b => b ^^^ 0x36)) ++ msg))

/-- Lowercase hex digit. -/
def hexDigitChar (n : Nat) : Char :=
  if n < 10 then Char.ofNat (48 + n) else Char.ofNat (87 + n)

/-- Lowercase hex encoding of bytes (Go `hex.EncodeToString`). -/
def bytesToHex (bs : List Nat) : String :=
  String.join (bs.map (fun b => String.mk [hexDigitChar (b / 16), hexDigitChar (b % 16)]))

/-- UTF-8 encoding of one character. -/
def utf8EncodeChar (c : Char) : List Nat :=
  let n := c.toNat
  if n < 0x80 then [n]
  else if n < 0x800 then
    [0xC0 ||| (n >>> 6), 0x80 ||| (n &&& 0x3F)]
  else if n < 0x10000 then
    [0xE0 ||| (n >>> 12), 0x80 ||| ((n >>> 6) &&& 0x3F), 0x80 ||| (n &&& 0x3F)]
  else
    [0xF0 ||| (n >>> 18), 0x80 ||| ((n >>> 12) &&& 0x3F),
     0x80 ||| ((n >>> 6) &&& 0x3F), 0x80 ||| (n &&& 0x3F)]

/-- UTF-8 bytes of a string. -/
def strBytes (s : String) : List Nat :=
  (s.data.map utf8EncodeChar).flatten

/-! ### Outbound notifier (`services.WebhookNotifier`) -/

/-- Embeds `services.WebhookPayload` (JSON tags in struct order). -/
structure WebhookPayload where
  event : String := ""
  transactionID : String := ""
  originalTransactionID : String := ""
  appAccountToken : String := ""
  status : String := ""
  productID : String := ""
  expiresDate : String := ""
  platform : String := ""
  timestamp : String := ""
  deriving Repr, DecidableEq

/-- Go `encoding/json` escaping of one character (the encoder escapes the
quote, backslash, control characters, and HTML-escapes `<`, `>`, `&` by
default). -/
def jsonEscapeChar (c : Char) : String :=
  if c = Char.ofNat 34 then "\\\""
  else if c = Char.ofNat 92 then "\\\\"
  else if c = Char.ofNat 10 then "\\n"
  else if c = Char.ofNat 13 then "\\r"
  else if c = Char.ofNat 9 then "\\t"
  else if c.toNat < 0x20 then
    "\\u00" ++ String.mk [hexDigitChar (c.toNat / 16), hexDigitChar (c.toNat % 16)]
  else if c = Char.ofNat 60 then "\\u003c"
  else if c = Char.ofNat 62 then "\\u003e"
  else if c = Char.ofNat 38 then "\\u0026"
  else if c.toNat = 0x2028 then "\\u2028"
  else if c.toNat = 0x2029 then "\\u2029"
  else String.mk [c]

/-- A JSON string literal. -/
def jsonQuote (s : String) : String :=
  "\"" ++ String.join (s.data.map jsonEscapeChar) ++ "\""

/-- Embeds `json.Marshal` of a `WebhookPayload`: the fields in struct order
under their JSON tags. -/
def marshalWebhookPayload (p : WebhookPayload) : String :=
  "\x7b\"event\":" ++ jsonQuote p.event ++
  ",\"transaction_id\":" ++ jsonQuote p.transactionID ++
  ",\"original_transaction_id\":" ++ jsonQuote p.originalTransactionID ++
  ",\"app_account_token\":" ++ jsonQuote p.appAccountToken ++
  ",\"status\":" ++ jsonQuote p.status ++
  ",\"product_id\":" ++ jsonQuote p.productID ++
  ",\"expires_date\":" ++ jsonQuote p.expiresDate ++
  ",\"platform\":" ++ jsonQuote p.platform ++
  ",\"timestamp\":" ++ jsonQuote p.timestamp ++ "\x7d"

/-- Embeds `WebhookNotifier.generateSignature`: lowercase hex of
HMAC-SHA256 over the payload bytes with the secret as key. -/
def generateSignature (payload : String) (secret : String) : String :=
  bytesToHex (hmacSha256 (strBytes secret) (strBytes payload))

/-- The HTTP POST that `WebhookNotifier.sendWebhook` builds. -/
structure WebhookRequest where
  url : String
  body : String
  headers : List (String × String)
  deriving Repr, DecidableEq

/-- Embeds `WebhookNotifier.sendWebhook` up to the network call: marshal the
payload, set `Content-Type` and `User-Agent`, and add `X-UnionHub-Signature`
only when a secret is configured. -/
def sendWebhook (callbackURL secret : String) (payload : WebhookPayload) :
    WebhookRequest :=
  let jsonData := marshalWebhookPayload payload
  { url := callbackURL
    body := jsonData
    headers :=
      [("Content-Type", "application/json"), ("User-Agent", "UnionHub-Webhook/1.0")] ++
      (if secret ≠ "" then [("X-UnionHub-Signature", generateSignature jsonData secret)]
       else []) }

/-- Embeds `retryDelays` (`1s, 5s, 30s`), in seconds. -/
def retryDelays : List Int := [1, 5, 30]

/-- Embeds `maxRetries := len(retryDelays)`. -/
def maxRetries : Nat := retryDelays.length

/-- Observable trace of `WebhookNotifier.sendWithRetry`: the offsets (in
seconds after the first attempt) at which HTTP POSTs are made, whether a 2xx
was reached, and whether the terminal give-up failure was logged. -/
structure RetryTrace where
  attemptTimes : List Int
  delivered : Bool
  terminalFailureLogged : Bool
  deriving Repr, DecidableEq

/-- The retry loop body of `sendWithRetry`.  `outcomes i` tells whether
attempt `i` got an HTTP 2xx (any non-2xx status or transport error is
`false`).  `fuel` is an upper bound on the remaining iterations, passed as
`maxRetries` at the top so the recursion mirrors
`for attempt := 0; attempt < maxRetries; attempt++`. -/
def sendWithRetryAux (outcomes : Nat → Bool) :
    Nat → Nat → Int → List Int → RetryTrace
  | 0, _, _, acc =>
      { attemptTimes := acc, delivered := false, terminalFailureLogged := true }
  | fuel + 1, attempt, now, acc =>
      let acc := acc ++ [now]
      if outcomes attempt then
        { attemptTimes := acc, delivered := true, terminalFailureLogged := false }
      else if attempt + 1 < maxRetries then
        sendWithRetryAux outcomes fuel (attempt + 1)
          (now + retryDelays.getD attempt 0) acc
      else
        { attemptTimes := acc, delivered := false, terminalFailureLogged := true }

/-- Embeds `WebhookNotifier.sendWithRetry`: up to `maxRetries` attempts,
sleeping `retryDelays[attempt]` after each failed attempt except the last,
stopping on the first success, logging a terminal failure after the last
failed attempt. -/
def sendWithRetry (outcomes : Nat → Bool) : RetryTrace :=
  sendWithRetryAux outcomes maxRetries 0 0 []

/-! ### `POST /api/subscription/bind_account` (`api.BindAccount`) -/

/-- Embeds `api.BindAccountRequest`. -/
structure BindAccountRequest where
  userID : String := ""
  originalTransactionID : String := ""
  purchaseToken : String := ""
  deriving Repr, DecidableEq

/-- Outcome of `BindAccount`: HTTP status, response flags, resulting table. -/
structure BindResult where
  httpStatus : Nat
  success : Bool
  message : String
  db : SubDB
  deriving Repr, DecidableEq

/-- Embeds `api.BindAccount`: `user_id` is `binding:"required"` (empty body
is a 400); one of the two identifiers is required; iOS rows are located by
`original_transaction_id` across all projects, Android rows by purchase
token; the located row's `user_id` is set to the request's value and
saved. -/
def BindAccount (db : SubDB) (req : BindAccountRequest) : BindResult :=
  if req.userID = "" then
    { httpStatus := 400, success := false, message := "Invalid request format",
      db := db }
  else if req.originalTransactionID = "" ∧ req.purchaseToken = "" then
    { httpStatus := 400, success := false,
      message := "Either original_transaction_id (iOS) or purchase_token (Android) is required",
      db := db }
  else
    let found :=
      if req.originalTransactionID ≠ "" then
        FindSubscriptionByOriginalTransactionID db req.originalTransactionID
      else
        FindSubscriptionByPurchaseToken db req.purchaseToken
    match found with
    | none =>
        { httpStatus := 404, success := false, message := "Subscription not found",
          db := db }
    | some subscription =>
        let subscription := { subscription with userID := req.userID }
        { httpStatus := 200, success := true, message := "Account bound successfully",
          db := UpdateSubscription db subscription }

/-! ### Legacy receipt verification (`SubscriptionVerificationService`) -/

/-- One entry of `receipt.latest_receipt_info` in Apple's verifyReceipt
response (millisecond timestamps arrive as decimal strings). -/
structure ReceiptEntry where
  transactionID : String := ""
  originalTransactionID : String := ""
  productID : String := ""
  purchaseDateMs : String := ""
  expiresDateMs : String := ""
  deriving Repr, DecidableEq

/-- Embeds `AppleReceiptResponse` (the fields `verifyWithApple` reads);
`rawBody` is the raw response body, stored verbatim into
`latest_receipt_info`. -/
structure AppleReceiptResponse where
  status : Int := 0
  environment : String := ""
  latestReceiptInfo : List ReceiptEntry := []
  latestReceipt : String := ""
  rawBody : String := ""
  deriving Repr, DecidableEq

/-- Failures of the legacy verification path: `apple s` is
`*AppleVerificationError{Status: s}` (non-zero verifyReceipt status), `other`
covers the remaining `fmt.Errorf` failures. -/
inductive VerifyErr where
  | apple (status : Int)
  | other (msg : String)
  deriving Repr, DecidableEq

/-- Value of a decimal digit character. -/
def digitVal (c : Char) : Option Nat :=
  if 48 ≤ c.toNat ∧ c.toNat ≤ 57 then some (c.toNat - 48) else none

/-- Accumulate decimal digits (all characters must be digits). -/
def parseNatDigits : List Char → Nat → Option Nat
  | [], acc => some acc
  | c :: rest, acc =>
      match digitVal c with
      | some d => parseNatDigits rest (acc * 10 + d)
      | none => none

/-- Decimal integer parse with optional leading minus (the shape
`fmt.Sscanf(s, "%d", &timestamp)` accepts for Apple's millisecond
strings). -/
def strToIntDec (s : String) : Option Int :=
  match s.data with
  | [] => none
  | c :: rest =>
      if c = Char.ofNat 45 then
        match rest with
        | [] => none
        | _ => (parseNatDigits rest 0).map (fun n => -(n : Int))
      else (parseNatDigits s.data 0).map (fun n => (n : Int))

/-- Embeds `parseAppleTimestamp`: reject the empty string, parse the decimal
millisecond value, convert to seconds. -/
def parseAppleTimestamp (s : String) : Except VerifyErr Int :=
  if s = "" then .error (.other "empty timestamp")
  else
    match strToIntDec s with
    | none => .error (.other "invalid timestamp")
    | some ms => .ok (msToUnix ms)

/-- Outcome of `verifyWithApple`: either an error (no write happened) or the
built subscription, together with the table (unchanged on error). -/
structure LegacyVerifyResult where
  result : Except VerifyErr Subscription
  db : SubDB
  deriving Repr

/-- Embeds `verifyWithApple` given the decoded response from the chosen
endpoint: non-zero status is an `AppleVerificationError`; otherwise the LAST
entry of `latest_receipt_info` is used; `status` is `active` unless the
expiry is strictly before `now`; the row (with the response's `environment`
string copied verbatim) is upserted. -/
def verifyWithApple (resp : AppleReceiptResponse) (projectID userID : String)
    (now : Int) (db : SubDB) : LegacyVerifyResult :=
  if resp.status ≠ 0 then
    { result := .error (.apple resp.status), db := db }
  else
    match resp.latestReceiptInfo.getLast? with
    | none => { result := .error (.other "no subscription found in receipt"), db := db }
    | some entry =>
        match parseAppleTimestamp entry.purchaseDateMs with
        | .error e => { result := .error e, db := db }
        | .ok purchaseDate =>
            match parseAppleTimestamp entry.expiresDateMs with
            | .error e => { result := .error e, db := db }
            | .ok expiresDate =>
                let status := if expiresDate < now then "expired" else "active"
                let sub : Subscription :=
                  { userID := userID
                    projectID := projectID
                    platform := "ios"
                    plan := getPlanFromProductID entry.productID
                    status := status
                    startDate := purchaseDate
                    endDate := expiresDate
                    productID := entry.productID
                    transactionID := entry.transactionID
                    originalTransactionID := entry.originalTransactionID
                    environment := resp.environment
                    purchaseDate := purchaseDate
                    expiresDate := expiresDate
                    autoRenewStatus := true
                    latestReceipt := resp.latestReceipt
                    latestReceiptInfo := resp.rawBody }
                let up := CreateOrUpdateSubscription db sub
                { result := .ok sub, db := up.db }

/-- Embeds `VerifyAppleReceipt`: try the production verifyReceipt endpoint
first; exactly when it fails with `AppleVerificationError` status `21007`,
retry the sandbox endpoint; any other failure is returned unchanged.
`responses env` is the decoded reply of the endpoint for environment `env`
(`"production"` or `"sandbox"`). -/
def VerifyAppleReceipt (responses : String → AppleReceiptResponse)
    (projectID userID : String) (now : Int) (db : SubDB) : LegacyVerifyResult :=
  let prod := verifyWithApple (responses "production") projectID userID now db
  match prod.result with
  | .ok _ => prod
  | .error e =>
      if e = .apple 21007 then
        verifyWithApple (responses "sandbox") projectID userID now db
      else
        prod

/-- Decoded claims of the `signedTransactionInfo` JWS returned by the App
Store Server API: the fields `VerifyAppleTransaction` reads
(appstore_signature.go, the anonymous `transactionInfo` struct).
Timestamps are milliseconds. -/
structure AppStoreAPITransaction where
  transactionID : String := ""
  originalTransactionID : String := ""
  productID : String := ""
  purchaseDate : Int := 0
  expiresDate : Int := 0
  environment : String := ""
  isInBillingRetry : Bool := false
  isInGracePeriod : Bool := false
  isTrialPeriod : Bool := false
  appAccountToken : String := ""
  deriving Repr, DecidableEq

/-- `strings.ToLower` for the ASCII environment strings the code compares
against. -/
def stringToLower (s : String) : String :=
  String.mk (s.data.map Char.toLower)

/-- Embeds the state-building tail of `VerifyAppleTransaction` (the modern
`POST /api/subscription/verify` path), from the decoded App Store Server
API transaction onward: status `active` unless the expiry is strictly
before `now` (then `expired`), overridden to `billing_retry` and then
`grace_period` when the respective flags are set; plan from the transaction
product id unless the caller supplied a different one; environment
lowercased and collapsed to `production`/`sandbox`; the returned
`appAccountToken` takes precedence over the caller-supplied user id;
`latest_receipt` holds the caller's signed transaction and
`latest_receipt_info` the raw API response body; then upsert. -/
def VerifyAppleTransaction (tx : AppStoreAPITransaction)
    (signedTransaction rawBody : String)
    (projectID productID userID : String) (now : Int) (db : SubDB) :
    LegacyVerifyResult :=
  let purchaseDate := msToUnix tx.purchaseDate
  let expiresDate := msToUnix tx.expiresDate
  let status := if expiresDate < now then "expired" else "active"
  let status := if tx.isInBillingRetry then "billing_retry" else status
  let status := if tx.isInGracePeriod then "grace_period" else status
  let plan := getPlanFromProductID tx.productID
  let plan :=
    if productID ≠ "" ∧ productID ≠ tx.productID then
      getPlanFromProductID productID
    else plan
  let env := stringToLower tx.environment
  let env := if env = "production" then "production" else "sandbox"
  let finalUserID :=
    if tx.appAccountToken ≠ "" then tx.appAccountToken else userID
  let sub : Subscription :=
    { userID := finalUserID
      projectID := projectID
      platform := "ios"
      plan := plan
      status := status
      startDate := purchaseDate
      endDate := expiresDate
      productID := tx.productID
      transactionID := tx.transactionID
      originalTransactionID := tx.originalTransactionID
      environment := env
      purchaseDate := purchaseDate
      expiresDate := expiresDate
      autoRenewStatus := true
      latestReceipt := signedTransaction
      latestReceiptInfo := rawBody }
  let up := CreateOrUpdateSubscription db sub
  { result := .ok sub, db := up.db }

/-! ### Sanity checks of the crypto embedding against published vectors -/

/-- FIPS 180-4 test vector: SHA-256 of the empty message. -/
theorem sha256_empty_vector :
    bytesToHex (sha256 []) =
      "e3b0c44298fc1c149afbf4c8996fb92427ae41e4649b934ca495991b7852b855" := by
  rfl

set_option maxRecDepth 4000 in
/-- RFC 2202-style test vector for HMAC-SHA256 with key `key`. -/
theorem hmacSha256_vector :
    bytesToHex (hmacSha256 (strBytes "key")
      (strBytes "The quick brown fox jumps over the lazy dog")) =
      "f7bc83f430538424b13298e6aa6fb143ef4d59a14946175997479dbc2d1a3cd8" := by
  rfl

/-! ### Claim theorems -/

/-- C1: in `CreateOrUpdateSubscription`, when the stored row's
`app_account_token` is a non-empty `T` and the incoming subscription carries
a non-empty token different from `T`, the written row still carries `T` and
a mismatch is logged; when the stored token is empty and the incoming token
is non-empty, the incoming token is bound. -/
theorem upsert_app_account_token_immutable
    (db : SubDB) (sub existing : Subscription)
    (hfind : GetSubscriptionByOriginalTransactionID db sub.projectID
      sub.originalTransactionID = some existing) :
    (existing.appAccountToken ≠ "" → sub.appAccountToken ≠ "" →
      sub.appAccountToken ≠ existing.appAccountToken →
      (CreateOrUpdateSubscription db sub).row.appAccountToken = existing.appAccountToken ∧
      (CreateOrUpdateSubscription db sub).mismatchLogged = true) ∧
    (existing.appAccountToken = "" → sub.appAccountToken ≠ "" →
      (CreateOrUpdateSubscription db sub).row.appAccountToken = sub.appAccountToken ∧
      (CreateOrUpdateSubscription db sub).boundToken = true) := by
  unfold CreateOrUpdateSubscription
  rw [hfind]
  constructor
  · intro h1 h2 h3
    simp [h1, h2, Ne.symm h3]
  · intro h1 h2
    simp [h1, h2]

/-- C1 witness: a stored row with token `T` and an incoming event with token
`T2` keep `T` and log the mismatch; an empty stored token is bound. -/
theorem upsert_app_account_token_immutable_witness :
    (CreateOrUpdateSubscription
        [{ id := 1, appAccountToken := "T", projectID := "p",
           originalTransactionID := "o" }]
        { appAccountToken := "T2", projectID := "p",
          originalTransactionID := "o" }).row.appAccountToken = "T" ∧
    (CreateOrUpdateSubscription
        [{ id := 1, appAccountToken := "T", projectID := "p",
           originalTransactionID := "o" }]
        { appAccountToken := "T2", projectID := "p",
          originalTransactionID := "o" }).mismatchLogged = true := by
  exact (upsert_app_account_token_immutable
    [{ id := 1, appAccountToken := "T", projectID := "p",
       originalTransactionID := "o" }]
    { appAccountToken := "T2", projectID := "p", originalTransactionID := "o" }
    { id := 1, appAccountToken := "T", projectID := "p",
      originalTransactionID := "o" }
    (by decide)).1 (by decide) (by decide) (by decide)

/-- C10: when `CreateOrUpdateSubscription` finds an existing row it
unconditionally overwrites status, start_date, end_date, expires_date,
auto_renew, latest_receipt, latest_receipt_info, plan, product_id,
transaction_id, environment and purchase_date with the incoming values —
without any timestamp or recency comparison (the statement quantifies over
arbitrary stored and incoming rows), so the last writer wins on every field
except `app_account_token`. -/
theorem upsert_last_writer_wins
    (db : SubDB) (sub existing : Subscription)
    (hfind : GetSubscriptionByOriginalTransactionID db sub.projectID
      sub.originalTransactionID = some existing) :
    (CreateOrUpdateSubscription db sub).created = false ∧
    (CreateOrUpdateSubscription db sub).row.status = sub.status ∧
    (CreateOrUpdateSubscription db sub).row.startDate = sub.startDate ∧
    (CreateOrUpdateSubscription db sub).row.endDate = sub.endDate ∧
    (CreateOrUpdateSubscription db sub).row.expiresDate = sub.expiresDate ∧
    (CreateOrUpdateSubscription db sub).row.autoRenewStatus = sub.autoRenewStatus ∧
    (CreateOrUpdateSubscription db sub).row.latestReceipt = sub.latestReceipt ∧
    (CreateOrUpdateSubscription db sub).row.latestReceiptInfo = sub.latestReceiptInfo ∧
    (CreateOrUpdateSubscription db sub).row.plan = sub.plan ∧
    (CreateOrUpdateSubscription db sub).row.productID = sub.productID ∧
    (CreateOrUpdateSubscription db sub).row.transactionID = sub.transactionID ∧
    (CreateOrUpdateSubscription db sub).row.environment = sub.environment ∧
    (CreateOrUpdateSubscription db sub).row.purchaseDate = sub.purchaseDate ∧
    (CreateOrUpdateSubscription db sub).row.id = existing.id ∧
    (CreateOrUpdateSubscription db sub).db =
      UpdateSubscription db (CreateOrUpdateSubscription db sub).row := by
  unfold CreateOrUpdateSubscription
  rw [hfind]
  refine ⟨rfl, rfl, rfl, rfl, rfl, rfl, rfl, rfl, rfl, rfl, rfl, rfl, rfl, ?_, rfl⟩
  dsimp only
  split_ifs <;> rfl

/-- C10 witness: an incoming event with older dates still replaces every
field of a newer stored row. -/
theorem upsert_last_writer_wins_witness :
    (CreateOrUpdateSubscription
        [{ id := 1, projectID := "p", originalTransactionID := "o",
           status := "active", expiresDate := 2000, purchaseDate := 1500 }]
        { projectID := "p", originalTransactionID := "o",
          status := "expired", expiresDate := 100, purchaseDate := 50 }).row.status
      = "expired" ∧
    (CreateOrUpdateSubscription
        [{ id := 1, projectID := "p", originalTransactionID := "o",
           status := "active", expiresDate := 2000, purchaseDate := 1500 }]
        { projectID := "p", originalTransactionID := "o",
          status := "expired", expiresDate := 100, purchaseDate := 50 }).row.expiresDate
      = 100 := by
  have h := upsert_last_writer_wins
    [{ id := 1, projectID := "p", originalTransactionID := "o",
       status := "active", expiresDate := 2000, purchaseDate := 1500 }]
    { projectID := "p", originalTransactionID := "o",
      status := "expired", expiresDate := 100, purchaseDate := 50 }
    { id := 1, projectID := "p", originalTransactionID := "o",
      status := "active", expiresDate := 2000, purchaseDate := 1500 }
    (by decide)
  exact ⟨h.2.1, h.2.2.2.2.1⟩

/-- When no row exists, `handleInitialBuy` creates an `active` row that
carries the incoming token, expiry and auto-renew flag. -/
lemma handleInitialBuy_absent (db : SubDB) (tx : TransactionInfo)
    (projectID environment : String)
    (hnone : GetSubscriptionByOriginalTransactionID db projectID
      tx.originalTransactionID = none) :
    ∃ row, handleInitialBuy db tx projectID environment = .ok (row, db ++ [row]) ∧
      row.status = "active" ∧ row.appAccountToken = tx.appAccountToken ∧
      row.expiresDate = msToUnix tx.expiresDateMS ∧
      row.autoRenewStatus = decide (tx.autoRenewStatus = 1) := by
  unfold handleInitialBuy
  rw [hnone]
  exact ⟨_, rfl, rfl, rfl, rfl, rfl⟩

/-- When a row exists, `handleInitialBuy` re-activates it, refreshes expiry
and auto-renew, binds the token only when the stored one is empty, and
saves. -/
lemma handleInitialBuy_present (db : SubDB) (tx : TransactionInfo)
    (projectID environment : String) (existing : Subscription)
    (hfind : GetSubscriptionByOriginalTransactionID db projectID
      tx.originalTransactionID = some existing) :
    ∃ row, handleInitialBuy db tx projectID environment =
        .ok (row, UpdateSubscription db row) ∧
      row.status = "active" ∧ row.expiresDate = msToUnix tx.expiresDateMS ∧
      row.autoRenewStatus = decide (tx.autoRenewStatus = 1) ∧
      (existing.appAccountToken = "" → tx.appAccountToken ≠ "" →
        row.appAccountToken = tx.appAccountToken) ∧
      (existing.appAccountToken ≠ "" →
        row.appAccountToken = existing.appAccountToken) := by
  unfold handleInitialBuy
  rw [hfind]
  refine ⟨_, rfl, rfl, rfl, rfl, ?_, ?_⟩
  · intro h1 h2
    simp [h1, h2]
  · intro h1
    simp [h1]

/-- When a row exists, `handleDidRenew` re-activates it and refreshes expiry
and auto-renew. -/
lemma handleDidRenew_present (db : SubDB) (tx : TransactionInfo)
    (projectID : String) (existing : Subscription)
    (hfind : GetSubscriptionByOriginalTransactionID db projectID
      tx.originalTransactionID = some existing) :
    ∃ row, handleDidRenew db tx projectID = .ok (row, UpdateSubscription db row) ∧
      row.status = "active" ∧ row.expiresDate = msToUnix tx.expiresDateMS ∧
      row.autoRenewStatus = decide (tx.autoRenewStatus = 1) := by
  unfold handleDidRenew
  rw [hfind]
  exact ⟨_, rfl, rfl, rfl, rfl⟩

/-- When a row exists, `handleTerminalStatus` writes the terminal status,
clears auto-renew and leaves `expires_date` untouched. -/
lemma handleTerminalStatus_present (db : SubDB) (tx : TransactionInfo)
    (projectID targetStatus : String) (existing : Subscription)
    (hfind : GetSubscriptionByOriginalTransactionID db projectID
      tx.originalTransactionID = some existing) :
    ∃ row, handleTerminalStatus db tx projectID targetStatus =
        .ok (row, UpdateSubscription db row) ∧
      row.status = targetStatus ∧ row.autoRenewStatus = false ∧
      row.expiresDate = existing.expiresDate := by
  unfold handleTerminalStatus
  rw [hfind]
  refine ⟨_, rfl, rfl, rfl, ?_⟩
  dsimp only
  split <;> rfl

/-- C3: the `handleNotificationByType` dispatch realises the spec's status
table: INITIAL_BUY and SUBSCRIBED yield an `active` row with create-or-update
and bind the token only when the stored one is empty; DID_RENEW and
RENEWAL_EXTENDED yield `active` with refreshed `expires_date` and
`auto_renew`; DID_FAIL_TO_RENEW yields `failed`, DID_CANCEL `cancelled`,
DID_REFUND and REVOKE `refunded`, EXPIRED and GRACE_PERIOD_EXPIRED `expired`,
each clearing `auto_renew`; any other notification type is a no-op returning
no subscription and leaving the table unchanged. -/
theorem notification_type_dispatch (db : SubDB) (tx : TransactionInfo)
    (projectID environment : String) :
    (∀ t, t = "INITIAL_BUY" ∨ t = "SUBSCRIBED" →
      (GetSubscriptionByOriginalTransactionID db projectID
          tx.originalTransactionID = none →
        ∃ row, handleNotificationByType db t tx projectID environment =
            .ok (some row, db ++ [row]) ∧
          row.status = "active" ∧ row.appAccountToken = tx.appAccountToken ∧
          row.expiresDate = msToUnix tx.expiresDateMS ∧
          row.autoRenewStatus = decide (tx.autoRenewStatus = 1)) ∧
      (∀ existing, GetSubscriptionByOriginalTransactionID db projectID
          tx.originalTransactionID = some existing →
        ∃ row, handleNotificationByType db t tx projectID environment =
            .ok (some row, UpdateSubscription db row) ∧
          row.status = "active" ∧ row.expiresDate = msToUnix tx.expiresDateMS ∧
          row.autoRenewStatus = decide (tx.autoRenewStatus = 1) ∧
          (existing.appAccountToken = "" → tx.appAccountToken ≠ "" →
            row.appAccountToken = tx.appAccountToken) ∧
          (existing.appAccountToken ≠ "" →
            row.appAccountToken = existing.appAccountToken))) ∧
    (∀ t, t = "DID_RENEW" ∨ t = "RENEWAL_EXTENDED" →
      ∀ existing, GetSubscriptionByOriginalTransactionID db projectID
          tx.originalTransactionID = some existing →
        ∃ row, handleNotificationByType db t tx projectID environment =
            .ok (some row, UpdateSubscription db row) ∧
          row.status = "active" ∧ row.expiresDate = msToUnix tx.expiresDateMS ∧
          row.autoRenewStatus = decide (tx.autoRenewStatus = 1)) ∧
    (∀ t target, (t = "DID_FAIL_TO_RENEW" ∧ target = "failed") ∨
        (t = "DID_CANCEL" ∧ target = "cancelled") ∨
        ((t = "DID_REFUND" ∨ t = "REVOKE") ∧ target = "refunded") ∨
        ((t = "EXPIRED" ∨ t = "GRACE_PERIOD_EXPIRED") ∧ target = "expired") →
      ∀ existing, GetSubscriptionByOriginalTransactionID db projectID
          tx.originalTransactionID = some existing →
        ∃ row, handleNotificationByType db t tx projectID environment =
            .ok (some row, UpdateSubscription db row) ∧
          row.status = target ∧ row.autoRenewStatus = false ∧
          row.expiresDate = existing.expiresDate) ∧
    (∀ t, t ∉ ["INITIAL_BUY", "SUBSCRIBED", "DID_RENEW", "RENEWAL_EXTENDED",
        "DID_FAIL_TO_RENEW", "DID_CANCEL", "DID_REFUND", "REVOKE",
        "EXPIRED", "GRACE_PERIOD_EXPIRED"] →
      handleNotificationByType db t tx projectID environment = .ok (none, db)) := by
  refine ⟨?_, ?_, ?_, ?_⟩
  · intro t ht
    constructor
    · intro hnone
      obtain ⟨row, heq, hprops⟩ :=
        handleInitialBuy_absent db tx projectID environment hnone
      refine ⟨row, ?_, hprops⟩
      rcases ht with h | h <;> subst h <;>
        simp [handleNotificationByType, heq, Except.map]
    · intro existing hfind
      obtain ⟨row, heq, hprops⟩ :=
        handleInitialBuy_present db tx projectID environment existing hfind
      refine ⟨row, ?_, hprops⟩
      rcases ht with h | h <;> subst h <;>
        simp [handleNotificationByType, heq, Except.map]
  · intro t ht existing hfind
    obtain ⟨row, heq, hprops⟩ :=
      handleDidRenew_present db tx projectID existing hfind
    refine ⟨row, ?_, hprops⟩
    rcases ht with h | h <;> subst h <;>
      simp [handleNotificationByType, heq, Except.map]
  · intro t target ht existing hfind
    rcases ht with ⟨h, htg⟩ | ⟨h, htg⟩ | ⟨h, htg⟩ | ⟨h, htg⟩ <;> subst htg
    · subst h
      obtain ⟨row, heq, hprops⟩ :=
        handleTerminalStatus_present db tx projectID "failed" existing hfind
      exact ⟨row, by
        simp [handleNotificationByType, handleDidFailToRenew, heq, Except.map],
        hprops⟩
    · subst h
      obtain ⟨row, heq, hprops⟩ :=
        handleTerminalStatus_present db tx projectID "cancelled" existing hfind
      exact ⟨row, by
        simp [handleNotificationByType, handleDidCancel, heq, Except.map],
        hprops⟩
    · obtain ⟨row, heq, hprops⟩ :=
        handleTerminalStatus_present db tx projectID "refunded" existing hfind
      refine ⟨row, ?_, hprops⟩
      rcases h with h | h <;> subst h <;>
        simp [handleNotificationByType, handleDidRefund, heq, Except.map]
    · obtain ⟨row, heq, hprops⟩ :=
        handleTerminalStatus_present db tx projectID "expired" existing hfind
      refine ⟨row, ?_, hprops⟩
      rcases h with h | h <;> subst h <;>
        simp [handleNotificationByType, handleExpired, heq, Except.map]
  · intro t ht
    simp only [List.mem_cons, List.not_mem_nil, or_false, not_or] at ht
    obtain ⟨h1, h2, h3, h4, h5, h6, h7, h8, h9, h10⟩ := ht
    simp [handleNotificationByType, h1, h2, h3, h4, h5, h6, h7, h8, h9, h10]

/-- C3 witness: on a one-row table, DID_CANCEL produces a `cancelled` row
with `auto_renew` cleared, and an unknown type is a no-op. -/
theorem notification_type_dispatch_witness :
    (∃ row, handleNotificationByType
        [{ id := 1, projectID := "p", originalTransactionID := "o",
           status := "active", autoRenewStatus := true, expiresDate := 500 }]
        "DID_CANCEL" { originalTransactionID := "o" } "p" "production" =
          .ok (some row,
            UpdateSubscription
              [{ id := 1, projectID := "p", originalTransactionID := "o",
                 status := "active", autoRenewStatus := true, expiresDate := 500 }]
              row) ∧
        row.status = "cancelled" ∧ row.autoRenewStatus = false) ∧
    handleNotificationByType
        [{ id := 1, projectID := "p", originalTransactionID := "o",
           status := "active", autoRenewStatus := true, expiresDate := 500 }]
        "CONSUMPTION_REQUEST" { originalTransactionID := "o" } "p" "production" =
      .ok (none,
        [{ id := 1, projectID := "p", originalTransactionID := "o",
           status := "active", autoRenewStatus := true, expiresDate := 500 }]) := by
  have h := notification_type_dispatch
    [{ id := 1, projectID := "p", originalTransactionID := "o",
       status := "active", autoRenewStatus := true, expiresDate := 500 }]
    { originalTransactionID := "o" } "p" "production"
  constructor
  · obtain ⟨row, heq, hst, har, _⟩ :=
      h.2.2.1 "DID_CANCEL" "cancelled" (Or.inr (Or.inl ⟨rfl, rfl⟩))
        { id := 1, projectID := "p", originalTransactionID := "o",
          status := "active", autoRenewStatus := true, expiresDate := 500 }
        (by decide)
    exact ⟨row, heq, hst, har⟩
  · exact h.2.2.2 "CONSUMPTION_REQUEST" (by decide)

/-- C4 counterexample: `handleDidRenew` derives `status` from the
notification type alone.  A DID_RENEW carrying `expiresDate = 1000` ms
(second 1 of the Unix epoch) writes a row with `status = "active"` whose
`expires_date` is not in the future of any realistic write moment, e.g.
Unix second 1700000000. -/
theorem active_write_without_future_expiry_counterexample :
    (handleDidRenew
        [{ id := 1, projectID := "p", originalTransactionID := "o",
           status := "active", expiresDate := 2000000000 }]
        { originalTransactionID := "o", expiresDateMS := 1000 } "p").map
      (fun p => (p.1.status, p.1.expiresDate)) = .ok ("active", 1) ∧
    ¬ ((1 : Int) > 1700000000) := by
  constructor
  · rfl
  · decide

/-- C4 (amended): the legacy verification path `verifyWithApple` writes
`active` exactly when the expiry is not strictly before `now` (so equality
still yields `active`); the modern path `VerifyAppleTransaction` writes
`active` exactly when the expiry is not strictly before `now` AND neither
the billing-retry nor the grace-period flag is set (so on both paths
`active` implies `expires_date ≥ now`, non-strict); the notification
handlers do not consult any clock: `handleDidRenew` writes
`status = "active"` with the notification's expiry for every expiry
value. -/
theorem active_status_vs_expiry
    (projectID userID : String) (now : Int) (db : SubDB) :
    (∀ (resp : AppleReceiptResponse) (sub : Subscription),
      (verifyWithApple resp projectID userID now db).result = .ok sub →
      (sub.status = "active" ↔ ¬ (sub.expiresDate < now))) ∧
    (∀ (tx : AppStoreAPITransaction) (st raw productID' : String)
        (sub : Subscription),
      (VerifyAppleTransaction tx st raw projectID productID' userID now
        db).result = .ok sub →
      (sub.status = "active" ↔
        (¬ (sub.expiresDate < now) ∧ tx.isInBillingRetry = false ∧
          tx.isInGracePeriod = false))) ∧
    (∀ (db' : SubDB) (tx : TransactionInfo) (pid : String)
        (existing : Subscription),
      GetSubscriptionByOriginalTransactionID db' pid tx.originalTransactionID =
        some existing →
      ∃ row, handleDidRenew db' tx pid = .ok (row, UpdateSubscription db' row) ∧
        row.status = "active" ∧ row.expiresDate = msToUnix tx.expiresDateMS) := by
  refine ⟨?_, ?_, ?_⟩
  · intro resp sub hok
    unfold verifyWithApple at hok
    split at hok
    · simp at hok
    · split at hok
      · simp at hok
      · split at hok
        · simp at hok
        · split at hok
          · simp at hok
          · simp only [Except.ok.injEq] at hok
            subst hok
            dsimp only
            split
            · rename_i hlt
              simp [hlt]
            · rename_i hlt
              simp [hlt]
  · intro tx st raw productID' sub hok
    unfold VerifyAppleTransaction at hok
    simp only [Except.ok.injEq] at hok
    subst hok
    cases hg : tx.isInGracePeriod <;> cases hb : tx.isInBillingRetry <;>
      simp only [hg, hb] <;> split_ifs <;> simp_all
  · intro db' tx pid existing hfind
    unfold handleDidRenew
    rw [hfind]
    exact ⟨_, rfl, rfl, rfl⟩

/-- C4 witness: a modern-path transaction with expiry at second 2000, seen
at `now = 1000` with both flags clear, yields exactly the row below, and the
theorem's equivalence holds at it. -/
theorem active_status_vs_expiry_witness :
    (({ userID := "u", projectID := "p", platform := "ios", plan := "basic",
        status := "active", startDate := 1000, endDate := 2000,
        productID := "pr", transactionID := "t", originalTransactionID := "o",
        environment := "production", purchaseDate := 1000, expiresDate := 2000,
        autoRenewStatus := true, latestReceipt := "st",
        latestReceiptInfo := "raw" } : Subscription).status = "active" ↔
      (¬ (({ userID := "u", projectID := "p", platform := "ios", plan := "basic",
             status := "active", startDate := 1000, endDate := 2000,
             productID := "pr", transactionID := "t",
             originalTransactionID := "o", environment := "production",
             purchaseDate := 1000, expiresDate := 2000,
             autoRenewStatus := true, latestReceipt := "st",
             latestReceiptInfo := "raw" } : Subscription).expiresDate < 1000) ∧
        false = false ∧ false = false)) :=
  (active_status_vs_expiry "p" "u" 1000 []).2.1
    { transactionID := "t", originalTransactionID := "o", productID := "pr",
      purchaseDate := 1000000, expiresDate := 2000000,
      environment := "Production" }
    "st" "raw" ""
    { userID := "u", projectID := "p", platform := "ios", plan := "basic",
      status := "active", startDate := 1000, endDate := 2000,
      productID := "pr", transactionID := "t", originalTransactionID := "o",
      environment := "production", purchaseDate := 1000, expiresDate := 2000,
      autoRenewStatus := true, latestReceipt := "st",
      latestReceiptInfo := "raw" }
    (by rfl)

/-- The wall-clock time at which a replay-guard event happens. -/
def opTime : ReplayOp → Int
  | .call _ _ n => n
  | .sweep n => n

/-- A lookup that found the first entry for a key survives filtering as long
as that entry itself is kept. -/
lemma lookup_filter_of_lookup (st : ReplayState) (nid : String) (t1 : Int)
    (p : String × Int → Bool) (h : st.lookup nid = some t1)
    (hp : p (nid, t1) = true) : (st.filter p).lookup nid = some t1 := by
  induction st with
  | nil => simp at h
  | cons e rest ih =>
      obtain ⟨k, v⟩ := e
      by_cases hk : nid = k
      · subst hk
        have hv : v = t1 := by simpa [List.lookup] using h
        subst hv
        simp [List.filter, hp, List.lookup]
      · have hrest : rest.lookup nid = some t1 := by
          simpa [List.lookup, beq_false_of_ne hk] using h
        by_cases hpe : p (k, v) = true
        · simp [List.filter, hpe, List.lookup, beq_false_of_ne hk, ih hrest]
        · rw [Bool.not_eq_true] at hpe
          simp [List.filter, hpe, ih hrest]

/-- `IsReplay` never removes a recorded entry, and never shadows an existing
key (it only inserts keys that are absent). -/
lemma lookup_after_isReplay (u : String) (t n : Int) (st : ReplayState)
    (nid : String) (t1 : Int) (h : st.lookup nid = some t1) :
    ((IsReplay u t n st).2).lookup nid = some t1 := by
  unfold IsReplay
  by_cases hu : u = ""
  · simp [hu, h]
  · rw [if_neg hu]
    cases hl : st.lookup (generateNotificationID u t) with
    | some v => simp [hl, h]
    | none =>
        have hne : nid ≠ generateNotificationID u t := by
          intro he
          rw [he] at h
          rw [h] at hl
          cases hl
        simp [hl, List.lookup, beq_false_of_ne hne, h]

/-- A sweep at a time within the TTL window of a recorded entry keeps it. -/
lemma lookup_after_cleanup (n : Int) (st : ReplayState) (nid : String)
    (t1 : Int) (h : st.lookup nid = some t1) (hn : n ≤ t1 + notificationTTL) :
    (replayCleanup n st).lookup nid = some t1 := by
  unfold replayCleanup
  apply lookup_filter_of_lookup st nid t1 _ h
  simp only [decide_eq_true_eq, gt_iff_lt, not_lt]
  omega

/-- A recorded entry survives any sequence of replay-guard events whose
times stay within the entry's 24-hour TTL window. -/
lemma runReplayOps_preserves (ops : List ReplayOp) (st : ReplayState)
    (nid : String) (t1 : Int) (h : st.lookup nid = some t1)
    (hops : ∀ op ∈ ops, opTime op ≤ t1 + notificationTTL) :
    (runReplayOps ops st).lookup nid = some t1 := by
  induction ops generalizing st with
  | nil => simpa [runReplayOps] using h
  | cons op rest ih =>
      have hop := hops op (by simp)
      have hrest : ∀ o ∈ rest, opTime o ≤ t1 + notificationTTL := by
        intro o ho
        exact hops o (by simp [ho])
      cases op with
      | call u t n =>
          exact ih _ (lookup_after_isReplay u t n st nid t1 h) hrest
      | sweep n =>
          exact ih _ (lookup_after_cleanup n st nid t1 h hop) hrest

/-- C2 counterexample: the replay key is the hash of `(uuid, signedDate)`,
not the UUID alone.  A second arrival of the same non-empty UUID with a
different `signedDate`, immediately after the first, is NOT rejected. -/
theorem replay_same_uuid_different_date_not_rejected :
    (IsReplay "6e3e0a4e-0000-0000-0000-000000000001" 2 60
      ((IsReplay "6e3e0a4e-0000-0000-0000-000000000001" 1 50 []).2)).1 = false := by
  decide

/-- C2 (amended): for every accepted notification with a non-empty UUID, a
subsequent arrival with the same UUID AND the same `signedDate`, with every
intervening guard event (other notifications, sweeper ticks) happening
within 24 h of the first arrival, is rejected: `IsReplay` returns `true`,
and the webhook endpoint answers HTTP 400 "Duplicate notification detected"
with the subscription table untouched and no outbound webhook started. -/
theorem replay_guard_rejects_duplicate
    (u : String) (d t1 now : Int) (st : ReplayState) (ops : List ReplayOp)
    (hu : u ≠ "")
    (hfirst : (IsReplay u d t1 st).1 = false)
    (hops : ∀ op ∈ ops, opTime op ≤ t1 + notificationTTL) :
    (IsReplay u d now (runReplayOps ops (IsReplay u d t1 st).2)).1 = true ∧
    (∀ (n : AppStoreNotification) (projects : List Project) (db : SubDB)
        (resolveDeviceID : String → Option String),
      n.notificationType ≠ "" → n.notificationUUID = u → n.signedDate = d →
      processAppStoreNotification n projects
          (runReplayOps ops (IsReplay u d t1 st).2) db now resolveDeviceID =
        { httpStatus := 400, message := "Duplicate notification detected",
          replay := runReplayOps ops (IsReplay u d t1 st).2, db := db,
          webhookStarted := false }) := by
  have hrec : ((IsReplay u d t1 st).2).lookup (generateNotificationID u d) =
      some t1 := by
    unfold IsReplay at hfirst ⊢
    rw [if_neg hu] at hfirst ⊢
    cases hl : st.lookup (generateNotificationID u d) with
    | some v => simp [hl] at hfirst
    | none => simp [hl, List.lookup]
  have hkept := runReplayOps_preserves ops _ _ _ hrec hops
  have hpair : ∀ S : ReplayState,
      S.lookup (generateNotificationID u d) = some t1 →
      IsReplay u d now S = (true, S) := by
    intro S hS
    unfold IsReplay
    rw [if_neg hu]
    simp [hS]
  refine ⟨by rw [hpair _ hkept], ?_⟩
  intro n projects db resolveDeviceID hnt huu hsd
  unfold processAppStoreNotification
  rw [if_neg hnt, huu, hsd, hpair _ hkept]
  rfl

/-- C2 witness: UUID `u` first seen at second 0; after an unrelated
notification at second 100 and a sweeper tick at second 86400, the same
`(uuid, signedDate)` arriving at second 86400 is rejected with a 400 and no
state change. -/
theorem replay_guard_rejects_duplicate_witness :
    (IsReplay "u-1" 7 86400
      (runReplayOps [ReplayOp.call "u-2" 9 100, ReplayOp.sweep 86400]
        (IsReplay "u-1" 7 0 []).2)).1 = true := by
  exact (replay_guard_rejects_duplicate "u-1" 7 0 86400 []
    [ReplayOp.call "u-2" 9 100, ReplayOp.sweep 86400]
    (by decide) (by decide) (by decide)).1

/-- C5 counterexample: under persistent failure the three POSTs happen at
`t`, `t+1 s` and `t+6 s` — there is no attempt at `t+36 s`.  The loop sleeps
`retryDelays[attempt]` only after a failed attempt that is not the last, so
the configured 30-second delay is never waited. -/
theorem webhook_retry_schedule_counterexample :
    (sendWithRetry (fun _ => false)).attemptTimes = [0, 1, 6] ∧
    (36 : Int) ∉ (sendWithRetry (fun _ => false)).attemptTimes := by
  decide

/-- C5 (amended): the notifier makes at most 3 POST attempts, at offsets
`t`, `t+1 s`, `t+6 s` (only the 1 s and 5 s delays of the `1s, 5s, 30s`
table are ever slept — no sleep follows the final attempt); the first 2xx
stops retrying, every failure triggers the next attempt, and after the 3rd
failed attempt a terminal failure is logged and no 4th attempt is made. -/
theorem webhook_retry_schedule (outcomes : Nat → Bool) :
    (sendWithRetry outcomes).attemptTimes.length ≤ 3 ∧
    (outcomes 0 = true →
      sendWithRetry outcomes =
        { attemptTimes := [0], delivered := true, terminalFailureLogged := false }) ∧
    (outcomes 0 = false → outcomes 1 = true →
      sendWithRetry outcomes =
        { attemptTimes := [0, 1], delivered := true, terminalFailureLogged := false }) ∧
    (outcomes 0 = false → outcomes 1 = false → outcomes 2 = true →
      sendWithRetry outcomes =
        { attemptTimes := [0, 1, 6], delivered := true,
          terminalFailureLogged := false }) ∧
    (outcomes 0 = false → outcomes 1 = false → outcomes 2 = false →
      sendWithRetry outcomes =
        { attemptTimes := [0, 1, 6], delivered := false,
          terminalFailureLogged := true }) := by
  cases h0 : outcomes 0 <;> cases h1 : outcomes 1 <;> cases h2 : outcomes 2 <;>
    simp [sendWithRetry, sendWithRetryAux, maxRetries, retryDelays, h0, h1, h2]

/-- C5 witness: a callback failing on every attempt yields exactly three
attempts at offsets 0, 1 and 6 seconds with the terminal failure logged. -/
theorem webhook_retry_schedule_witness :
    sendWithRetry (fun _ => false) =
      { attemptTimes := [0, 1, 6], delivered := false,
        terminalFailureLogged := true } :=
  (webhook_retry_schedule (fun _ => false)).2.2.2.2 rfl rfl rfl

/-- C6: every request built by `sendWebhook` carries the marshalled JSON
payload as its body, `Content-Type: application/json` and
`User-Agent: UnionHub-Webhook/1.0`; when the project has a non-empty signing
secret the request carries `X-UnionHub-Signature` equal to
`hex(HMAC-SHA256(secret, body))` computed over the exact body transmitted,
and when no secret is configured no such header is present. -/
theorem webhook_signature_header (callbackURL secret : String)
    (payload : WebhookPayload) :
    (sendWebhook callbackURL secret payload).body = marshalWebhookPayload payload ∧
    ("Content-Type", "application/json") ∈ (sendWebhook callbackURL secret payload).headers ∧
    ("User-Agent", "UnionHub-Webhook/1.0") ∈ (sendWebhook callbackURL secret payload).headers ∧
    (secret ≠ "" →
      ("X-UnionHub-Signature",
        bytesToHex (hmacSha256 (strBytes secret)
          (strBytes (sendWebhook callbackURL secret payload).body))) ∈
        (sendWebhook callbackURL secret payload).headers) ∧
    (secret = "" → ∀ v,
      ("X-UnionHub-Signature", v) ∉ (sendWebhook callbackURL secret payload).headers) := by
  refine ⟨rfl, by simp [sendWebhook], by simp [sendWebhook], ?_, ?_⟩
  · intro hs
    simp [sendWebhook, generateSignature, hs]
  · intro hs v
    simp [sendWebhook, hs]

set_option maxRecDepth 8000 in
/-- C6 witness: for a concrete secret and payload the signature header is
present and equals the independently computed
HMAC-SHA256 hex digest of the transmitted JSON body, bit for bit. -/
theorem webhook_signature_header_witness :
    ("X-UnionHub-Signature",
      "803e626427be3aee83a16fad64ed50a631d8d596169611fd1ef4119ead9f2e34") ∈
      (sendWebhook "https://cb.example.com/hook" "sec"
        { event := "subscription.updated", transactionID := "t1",
          originalTransactionID := "o1", appAccountToken := "aat",
          status := "active", productID := "com.example.monthly",
          expiresDate := "2023-12-14T22:13:20Z", platform := "ios",
          timestamp := "2023-11-14T22:13:20Z" }).headers := by
  have h := (webhook_signature_header "https://cb.example.com/hook" "sec"
    { event := "subscription.updated", transactionID := "t1",
      originalTransactionID := "o1", appAccountToken := "aat",
      status := "active", productID := "com.example.monthly",
      expiresDate := "2023-12-14T22:13:20Z", platform := "ios",
      timestamp := "2023-11-14T22:13:20Z" }).2.2.2.1 (by decide)
  have hsig : bytesToHex (hmacSha256 (strBytes "sec")
      (strBytes (sendWebhook "https://cb.example.com/hook" "sec"
        { event := "subscription.updated", transactionID := "t1",
          originalTransactionID := "o1", appAccountToken := "aat",
          status := "active", productID := "com.example.monthly",
          expiresDate := "2023-12-14T22:13:20Z", platform := "ios",
          timestamp := "2023-11-14T22:13:20Z" }).body)) =
      "803e626427be3aee83a16fad64ed50a631d8d596169611fd1ef4119ead9f2e34" := by
    rfl
  rw [hsig] at h
  exact h

/-- C7 counterexample: after a 21007-then-success run the persisted row's
`environment` is NOT the literal `"sandbox"`: `verifyWithApple` copies the
response's `environment` field verbatim (Apple's sandbox endpoint reports
`"Sandbox"`), unlike the modern path which lowercases it. -/
theorem legacy_sandbox_environment_counterexample :
    (match (VerifyAppleReceipt
        (fun env => if env = "production" then { status := 21007 }
          else { status := 0, environment := "Sandbox",
                 latestReceiptInfo := [{ transactionID := "t",
                                         originalTransactionID := "o",
                                         productID := "pr",
                                         purchaseDateMs := "1000000",
                                         expiresDateMs := "2000000" }] })
        "p" "u" 100 []).result with
      | .ok s => s.environment
      | .error _ => "") = "Sandbox" ∧ "Sandbox" ≠ "sandbox" := by
  exact ⟨rfl, by decide⟩

/-- C7 (amended): the production verifyReceipt endpoint is consulted first
and the sandbox endpoint is retried exactly when production fails with
Apple status 21007; any other non-zero status is returned as an error with
no subscription persisted; on status 0 the subscription is built from the
LAST entry of `latest_receipt_info`; and for a 21007-then-success run the
persisted row's `environment` equals the sandbox response's `environment`
string verbatim (so it is `"sandbox"` only when the response says so). -/
theorem legacy_verify_fallback
    (responses : String → AppleReceiptResponse) (projectID userID : String)
    (now : Int) (db : SubDB) :
    ((verifyWithApple (responses "production") projectID userID now db).result =
        .error (.apple 21007) →
      VerifyAppleReceipt responses projectID userID now db =
        verifyWithApple (responses "sandbox") projectID userID now db) ∧
    (∀ e, (verifyWithApple (responses "production") projectID userID now db).result =
        .error e → e ≠ .apple 21007 →
      VerifyAppleReceipt responses projectID userID now db =
        verifyWithApple (responses "production") projectID userID now db) ∧
    (∀ sub, (verifyWithApple (responses "production") projectID userID now db).result =
        .ok sub →
      VerifyAppleReceipt responses projectID userID now db =
        verifyWithApple (responses "production") projectID userID now db) ∧
    (∀ s, (responses "production").status = s → s ≠ 0 → s ≠ 21007 →
      (VerifyAppleReceipt responses projectID userID now db).result =
        .error (.apple s) ∧
      (VerifyAppleReceipt responses projectID userID now db).db = db) ∧
    (∀ resp sub, (verifyWithApple resp projectID userID now db).result = .ok sub →
      resp.status = 0 ∧
      ∃ entry, resp.latestReceiptInfo.getLast? = some entry ∧
        sub.transactionID = entry.transactionID ∧
        sub.originalTransactionID = entry.originalTransactionID ∧
        sub.productID = entry.productID ∧
        sub.environment = resp.environment ∧
        sub.userID = userID ∧ sub.platform = "ios") := by
  refine ⟨?_, ?_, ?_, ?_, ?_⟩
  · intro herr
    simp [VerifyAppleReceipt, herr]
  · intro e herr hne
    simp only [VerifyAppleReceipt, herr]
    rw [if_neg hne]
  · intro sub hok
    simp only [VerifyAppleReceipt, hok]
  · intro s hstat hs0 hs21
    have herr : (verifyWithApple (responses "production") projectID userID now db).result
        = .error (.apple s) ∧
        (verifyWithApple (responses "production") projectID userID now db).db = db := by
      unfold verifyWithApple
      rw [if_pos (hstat ▸ hs0)]
      exact ⟨by rw [hstat], rfl⟩
    have hne : VerifyErr.apple s ≠ .apple 21007 := by
      intro hc
      cases hc
      exact hs21 rfl
    have heq : VerifyAppleReceipt responses projectID userID now db =
        verifyWithApple (responses "production") projectID userID now db := by
      simp only [VerifyAppleReceipt, herr.1]
      rw [if_neg hne]
    rw [heq]
    exact herr
  · intro resp sub hok
    unfold verifyWithApple at hok
    split at hok
    · simp at hok
    · rename_i hstat
      refine ⟨by omega, ?_⟩
      split at hok
      · simp at hok
      · rename_i entry hlast
        split at hok
        · simp at hok
        · split at hok
          · simp at hok
          · simp only [Except.ok.injEq] at hok
            subst hok
            exact ⟨entry, hlast, rfl, rfl, rfl, rfl, rfl, rfl⟩

/-- C7 witness: with production answering 21007 and sandbox answering
status 0, the result equals the sandbox verification, and the concrete run
of the previous counterexample instantiates the success conjunct. -/
theorem legacy_verify_fallback_witness :
    VerifyAppleReceipt
        (fun env => if env = "production" then { status := 21007 }
          else { status := 0, environment := "Sandbox",
                 latestReceiptInfo := [{ transactionID := "t",
                                         originalTransactionID := "o",
                                         productID := "pr",
                                         purchaseDateMs := "1000000",
                                         expiresDateMs := "2000000" }] })
        "p" "u" 100 [] =
      verifyWithApple
        { status := 0, environment := "Sandbox",
          latestReceiptInfo := [{ transactionID := "t",
                                  originalTransactionID := "o",
                                  productID := "pr",
                                  purchaseDateMs := "1000000",
                                  expiresDateMs := "2000000" }] }
        "p" "u" 100 [] := by
  exact (legacy_verify_fallback
    (fun env => if env = "production" then { status := 21007 }
      else { status := 0, environment := "Sandbox",
             latestReceiptInfo := [{ transactionID := "t",
                                     originalTransactionID := "o",
                                     productID := "pr",
                                     purchaseDateMs := "1000000",
                                     expiresDateMs := "2000000" }] })
    "p" "u" 100 []).1 rfl

/-- C8 counterexample: `BindAccount` assigns `user_id` unconditionally.  A
subscription already bound to `"original-user"` is overwritten with the
request's `"intruder"` and the endpoint reports success. -/
theorem bind_account_overwrite_counterexample :
    ((BindAccount
        [{ id := 1, userID := "original-user", projectID := "p",
           originalTransactionID := "o" }]
        { userID := "intruder", originalTransactionID := "o" }).db.map
      (fun s => s.userID)) = ["intruder"] ∧
    (BindAccount
        [{ id := 1, userID := "original-user", projectID := "p",
           originalTransactionID := "o" }]
        { userID := "intruder", originalTransactionID := "o" }).httpStatus = 200 ∧
    "intruder" ≠ "original-user" := by
  decide

/-- C8 (amended): `BindAccount` locates the row by
`original_transaction_id` (iOS) or purchase token (Android) and then sets
the row's `user_id` to the request's value UNCONDITIONALLY — a non-empty
stored value is overwritten, not preserved; the `app_account_token` column
is left untouched by the operation. -/
theorem bind_account_unconditional_overwrite
    (db : SubDB) (req : BindAccountRequest) (s : Subscription)
    (hu : req.userID ≠ "") :
    (req.originalTransactionID ≠ "" →
      FindSubscriptionByOriginalTransactionID db req.originalTransactionID =
        some s →
      BindAccount db req =
        { httpStatus := 200, success := true,
          message := "Account bound successfully",
          db := UpdateSubscription db { s with userID := req.userID } }) ∧
    (req.originalTransactionID = "" → req.purchaseToken ≠ "" →
      FindSubscriptionByPurchaseToken db req.purchaseToken = some s →
      BindAccount db req =
        { httpStatus := 200, success := true,
          message := "Account bound successfully",
          db := UpdateSubscription db { s with userID := req.userID } }) ∧
    ({ s with userID := req.userID }).appAccountToken = s.appAccountToken := by
  refine ⟨?_, ?_, rfl⟩
  · intro ho hfind
    unfold BindAccount
    rw [if_neg hu, if_neg (by simp [ho]), if_pos ho, hfind]
  · intro ho hp hfind
    unfold BindAccount
    rw [if_neg hu, if_neg (by simp [ho, hp]), if_neg (by simp [ho]), hfind]

/-- C8 witness: binding onto an already-bound one-row table succeeds and
rewrites `user_id`. -/
theorem bind_account_unconditional_overwrite_witness :
    BindAccount
        [{ id := 1, userID := "original-user", projectID := "p",
           originalTransactionID := "o" }]
        { userID := "intruder", originalTransactionID := "o" } =
      { httpStatus := 200, success := true,
        message := "Account bound successfully",
        db := UpdateSubscription
          [{ id := 1, userID := "original-user", projectID := "p",
             originalTransactionID := "o" }]
          { id := 1, userID := "intruder", projectID := "p",
            originalTransactionID := "o" } } := by
  exact (bind_account_unconditional_overwrite
    [{ id := 1, userID := "original-user", projectID := "p",
       originalTransactionID := "o" }]
    { userID := "intruder", originalTransactionID := "o" }
    { id := 1, userID := "original-user", projectID := "p",
      originalTransactionID := "o" }
    (by decide)).1 (by decide) (by decide)

/-- The `BindAccount` lookup ignores `project_id`: reassigning every row's
project arbitrarily commutes with the lookup. -/
lemma find_otid_ignores_project (db : SubDB) (otid : String)
    (f : Subscription → String) :
    FindSubscriptionByOriginalTransactionID
        (db.map (fun x => { x with projectID := f x })) otid =
      (FindSubscriptionByOriginalTransactionID db otid).map
        (fun x => { x with projectID := f x }) := by
  induction db with
  | nil => rfl
  | cons r rest ih =>
      by_cases h : r.originalTransactionID = otid
      · simp [FindSubscriptionByOriginalTransactionID, List.find?_cons, h]
      · simp [FindSubscriptionByOriginalTransactionID, List.find?_cons, h]
        simpa [FindSubscriptionByOriginalTransactionID] using ih

/-- C9: the `bind_account` lookup carries no `project_id` filter — the
request type has no project field, reassigning projects commutes with the
lookup, and for every tenant `P` a row owned by `P` is located and its
`user_id` rewritten by a caller who presented no credentials for `P`. -/
theorem bind_account_ignores_project
    (P userID otid : String) (r : Subscription)
    (hr : r.originalTransactionID = otid) (hp : r.projectID = P)
    (hu : userID ≠ "") (ho : otid ≠ "") :
    (BindAccount [r] { userID := userID, originalTransactionID := otid }).httpStatus
      = 200 ∧
    (BindAccount [r] { userID := userID, originalTransactionID := otid }).db =
      [{ r with userID := userID }] ∧
    ({ r with userID := userID }).projectID = P ∧
    (∀ (db : SubDB) (f : Subscription → String),
      FindSubscriptionByOriginalTransactionID
          (db.map (fun x => { x with projectID := f x })) otid =
        (FindSubscriptionByOriginalTransactionID db otid).map
          (fun x => { x with projectID := f x })) := by
  have hfind : FindSubscriptionByOriginalTransactionID [r] otid = some r := by
    simp [FindSubscriptionByOriginalTransactionID, List.find?_cons, hr]
  have hbind : BindAccount [r] { userID := userID, originalTransactionID := otid } =
      { httpStatus := 200, success := true,
        message := "Account bound successfully",
        db := UpdateSubscription [r] { r with userID := userID } } := by
    unfold BindAccount
    rw [if_neg hu, if_neg (by simp [ho]), if_pos (by simpa using ho), hfind]
  refine ⟨by rw [hbind], ?_, hp, fun db f => find_otid_ignores_project db otid f⟩
  rw [hbind]
  simp [UpdateSubscription]

/-- C9 witness: a row of project `tenant-A` is rebound by a caller who names
no project at all. -/
theorem bind_account_ignores_project_witness :
    (BindAccount [{ id := 7, userID := "", projectID := "tenant-A",
                    originalTransactionID := "o-9" }]
      { userID := "USR-42", originalTransactionID := "o-9" }).db =
      [{ id := 7, userID := "USR-42", projectID := "tenant-A",
         originalTransactionID := "o-9" }] := by
  exact (bind_account_ignores_project "tenant-A" "USR-42" "o-9"
    { id := 7, userID := "", projectID := "tenant-A",
      originalTransactionID := "o-9" }
    rfl rfl (by decide) (by decide)).2.1

end VerificationApi
